import Mathlib

/-!
Verification development for the Structured AI Problem-Solver
(source: src/streamlit_app.py, a React/JavaScript single-file app).

Strings are modelled as `List Char`.  JavaScript string operations used by
the source (`indexOf`, `substring`, `trim`, `toLowerCase`) are given
executable models below, and the response splitter, the generation client
and the wizard transition handlers are shallow embeddings of the
corresponding source functions.
-/

/-- Strings of the JavaScript source, modelled as lists of characters. -/
abbrev Str := List Char

/-- Model of JavaScript `String.prototype.indexOf`: the first index at which
`pat` occurs as a contiguous substring of `s`, or `none` when it does not
occur (the source compares the JS result against `-1`). -/
def firstOccur (pat : Str) : Str → Option Nat
  | [] => if pat.isPrefixOf [] then some 0 else none
  | c :: t =>
    if pat.isPrefixOf (c :: t) then some 0
    else (firstOccur pat t).map (· + 1)

/-- Model of JavaScript `String.prototype.toLowerCase` on the ASCII range. -/
def toLowerStr (s : Str) : Str := s.map Char.toLower

/-- Model of JavaScript `String.prototype.trim`: strip leading and trailing
whitespace. -/
def trim (s : Str) : Str :=
  ((s.dropWhile Char.isWhitespace).reverse.dropWhile Char.isWhitespace).reverse

/-- Model of the two-argument JavaScript `String.prototype.substring`
(swapping the endpoints when given out of order, clamping to the length). -/
def jsSubstring (s : Str) (a b : Nat) : Str :=
  (s.drop (min a b)).take (max a b - min a b)

/-- Marker searched for by the splitter: `"solution:"` (the source searches
the lowercased response, so the lowercase literal is the marker). -/
def solutionMarker : Str := "solution:".toList

/-- Marker searched for by the splitter: `"feedback:"`. -/
def feedbackMarker : Str := "feedback:".toList

/-- Placeholder stored in `finalFeedback` when only the solution marker is
found (src/streamlit_app.py:115). -/
def noFeedbackFound : Str :=
  "No explicit feedback section found, but consider the solution\x27s clarity.".toList

/-- Placeholder stored in `finalSolution` when only the feedback marker is
found (src/streamlit_app.py:118). -/
def noSolutionFound : Str :=
  "No explicit solution section found, but consider the feedback for your problem-solving.".toList

/-- Notice prefixed to the raw response when neither marker is found
(src/streamlit_app.py:121). -/
def couldNotParseNotice : Str :=
  "AI generated response (could not parse into specific solution/feedback sections):\n".toList

/-- The response splitter of `handleEventsSubmitted`
(src/streamlit_app.py:102-123): locate the first occurrences of
`"solution:"` and `"feedback:"` in the lowercased response and extract the
`(finalSolution, finalFeedback)` pair by the source's four-way branch. -/
def splitResponse (response : Str) : Str × Str :=
  match firstOccur solutionMarker (toLowerStr response),
        firstOccur feedbackMarker (toLowerStr response) with
  | some si, some fi =>
    if si < fi then
      (trim (jsSubstring response (si + solutionMarker.length) fi),
       trim (List.drop (fi + feedbackMarker.length) response))
    else
      (trim (List.drop (si + solutionMarker.length) response),
       trim (jsSubstring response (fi + feedbackMarker.length) si))
  | some si, none =>
    (trim (List.drop (si + solutionMarker.length) response), noFeedbackFound)
  | none, some fi =>
    (noSolutionFound, trim (List.drop (fi + feedbackMarker.length) response))
  | none, none =>
    (couldNotParseNotice ++ response, [])

/-- One `parts` entry of a Gemini response body. -/
structure GeminiPart where
  text : Str
deriving DecidableEq

/-- The `content` object of a Gemini candidate; `parts` may be absent. -/
structure GeminiContent where
  parts : Option (List GeminiPart)
deriving DecidableEq

/-- One candidate of a Gemini response body; `content` may be absent. -/
structure GeminiCandidate where
  content : Option GeminiContent
deriving DecidableEq

/-- The parsed JSON body of a Gemini response; `candidates` may be absent. -/
structure GeminiResult where
  candidates : Option (List GeminiCandidate)
deriving DecidableEq

/-- The outcome of the one `fetch` exchange inside `callGeminiAPI`: either a
response (HTTP status plus parsed JSON body) or a thrown transport error
caught by the `catch` block. -/
inductive GeminiOutcome where
  | response (status : Nat) (body : GeminiResult)
  | thrown
deriving DecidableEq

/-- Message returned when the candidate-list check fails
(src/streamlit_app.py:24). -/
def invalidResponseMsg : Str :=
  "Error: Could not get a valid response from AI. Please try again.".toList

/-- Message returned from the `catch` block (src/streamlit_app.py:28). -/
def connectionErrorMsg : Str :=
  "Error: Failed to connect to AI. Please check your network or try again later.".toList

/-- The candidate-list check of `callGeminiAPI` (src/streamlit_app.py:18-21):
`result.candidates && result.candidates.length > 0 &&
result.candidates[0].content && result.candidates[0].content.parts &&
result.candidates[0].content.parts.length > 0`, returning
`result.candidates[0].content.parts[0].text` when it passes. -/
def firstCandidateText (r : GeminiResult) : Option Str :=
  match r.candidates with
  | some (c :: _) =>
    match c.content with
    | some ct =>
      match ct.parts with
      | some (p :: _) => some p.text
      | _ => none
    | none => none
  | _ => none

/-- Model of `callGeminiAPI` (src/streamlit_app.py:4-30) as a function of the
outcome of the external exchange.  The source never reads the HTTP status:
it returns the first candidate text when the checks pass, a fixed message
when they fail, and a fixed message from the `catch` block. -/
def callGeminiAPI (o : GeminiOutcome) : Str :=
  match o with
  | .thrown => connectionErrorMsg
  | .response _ body =>
    match firstCandidateText body with
    | some t => t
    | none => invalidResponseMsg

/-- Typed failure taxonomy of the spec's Generation Client contract. -/
inductive GenerationError where
  | Unreachable
  | EmptyResponse
  | ServiceError (code : Nat)
deriving DecidableEq

/-- Modelled from the spec: the Generation Client contract
`generate(prompt) -> Result<string, GenerationError>` of section 4.1 —
transport failure maps to `Unreachable`, a non-2xx status to
`ServiceError(code)`, a malformed or empty candidate list to
`EmptyResponse`, success to the first candidate's text.  This definition
follows the spec's words and exists only to be compared with
`callGeminiAPI`, the embedding of the source. -/
def specGenerate (o : GeminiOutcome) : Except GenerationError Str :=
  match o with
  | .thrown => .error .Unreachable
  | .response status body =>
    if status < 200 ∨ 300 ≤ status then .error (.ServiceError status)
    else
      match firstCandidateText body with
      | some t => .ok t
      | none => .error .EmptyResponse

/-- The session state of the `App` component (src/streamlit_app.py:34-42):
one `useState` hook per field.  `currentStep` uses the source's numbering
1 = ProblemEntry, 2 = QuestionReview, 3 = EventEntry, 4 = ResultView. -/
structure AppState where
  currentStep : Nat
  problemStatement : Str
  aiGeneratedQuestions : Str
  userAnswersToQuestions : Str
  supportingEvents : Str
  finalSolution : Str
  finalFeedback : Str
  loading : Bool
  errorMessage : Str
deriving DecidableEq

/-- The initial session state: step 1 and every string field empty. -/
def initialAppState : AppState :=
  { currentStep := 1
    problemStatement := []
    aiGeneratedQuestions := []
    userAnswersToQuestions := []
    supportingEvents := []
    finalSolution := []
    finalFeedback := []
    loading := false
    errorMessage := [] }

/-- Validation message of `handleProblemSubmit` (src/streamlit_app.py:46). -/
def problemEmptyMsg : Str := "Please describe your problem to proceed.".toList

/-- Validation message of `handleQuestionsAnswered`
(src/streamlit_app.py:61). -/
def answersEmptyMsg : Str := "Please answer the questions to proceed.".toList

/-- Validation message of `handleEventsSubmitted`
(src/streamlit_app.py:70). -/
def eventsEmptyMsg : Str :=
  "Please provide some relevant events or details to proceed.".toList

/-- The clarifying-questions prompt built by `handleProblemSubmit`
(src/streamlit_app.py:52). -/
def clarifyingPrompt (problemStatement : Str) : Str :=
  "As a student, I have the following problem: \"".toList ++ problemStatement ++
  "\". To help me understand this problem better and find a solution, please ask me 3-5 concise, insightful follow-up questions. Format them as a numbered list.".toList

/-- First fixed segment of the consolidated prompt (see
`fullContextPrompt`). -/
def promptSeg1 : Str :=
  "As a student, I need help solving a problem. Here\x27s a structured overview of my situation:\n\nProblem: \"".toList

/-- Second fixed segment of the consolidated prompt. -/
def promptSeg2 : Str :=
  "\"\n\nMy answers to follow-up questions that clarify the problem:\n\"".toList

/-- Third fixed segment of the consolidated prompt. -/
def promptSeg3 : Str :=
  "\"\n\nRelevant events or specific details that happened:\n\"".toList

/-- Final fixed segment of the consolidated prompt. -/
def promptSeg4 : Str :=
  "\"\n\nBased on ALL this information, please do two things:\n1. Provide a clear, actionable solution or a set of steps to address my problem.\n2. Provide constructive feedback on my overall understanding of the problem and the clarity of the information I provided, suggesting how I could further refine my problem-solving approach in the future.".toList

/-- Modelled from the spec: the consolidated prompt of
`handleEventsSubmitted`.  The source's prompt-construction statement
(src/streamlit_app.py:77-98) is syntactically garbled — a Python-style
assignment to `full_context_prompt` followed by stray template text, while
the undefined name `fullContextPrompt` is what is passed to
`callGeminiAPI` — so this definition follows the spec's words (section
4.3: a single consolidated prompt embedding `problemStatement`,
`userAnswers` and `supportingEvents`) using the surviving template text of
the source. -/
def fullContextPrompt (st : AppState) : Str :=
  promptSeg1 ++ st.problemStatement ++
  promptSeg2 ++ st.userAnswersToQuestions ++
  promptSeg3 ++ st.supportingEvents ++ promptSeg4

/-- Model of `handleProblemSubmit` (src/streamlit_app.py:44-57).  The
parameter `gen` models the external world: it maps the prompt passed to
`callGeminiAPI` to the outcome of the exchange.  On empty trimmed input
only `errorMessage` is set; otherwise the response is stored in
`aiGeneratedQuestions` and the step advances to 2 unconditionally
(`setLoading true` then `setLoading false` leaves `loading = false`). -/
def handleProblemSubmit (gen : Str → GeminiOutcome) (st : AppState) : AppState :=
  if trim st.problemStatement = [] then
    { st with errorMessage := problemEmptyMsg }
  else
    { st with
      loading := false
      errorMessage := []
      aiGeneratedQuestions := callGeminiAPI (gen (clarifyingPrompt st.problemStatement))
      currentStep := 2 }

/-- Model of `handleQuestionsAnswered` (src/streamlit_app.py:59-66). -/
def handleQuestionsAnswered (st : AppState) : AppState :=
  if trim st.userAnswersToQuestions = [] then
    { st with errorMessage := answersEmptyMsg }
  else
    { st with errorMessage := [], currentStep := 3 }

/-- Model of `handleEventsSubmitted` (src/streamlit_app.py:68-127): validate
`supportingEvents`, call the client on the consolidated prompt, split the
response into solution and feedback, advance to step 4. -/
def handleEventsSubmitted (gen : Str → GeminiOutcome) (st : AppState) : AppState :=
  if trim st.supportingEvents = [] then
    { st with errorMessage := eventsEmptyMsg }
  else
    let response := callGeminiAPI (gen (fullContextPrompt st))
    let parts := splitResponse response
    { st with
      loading := false
      errorMessage := []
      finalSolution := parts.1
      finalFeedback := parts.2
      currentStep := 4 }

/-- Model of `handleRestart` (src/streamlit_app.py:129-138): step back to 1
and every string field to empty (`loading` is not touched). -/
def handleRestart (st : AppState) : AppState :=
  { st with
    currentStep := 1
    problemStatement := []
    aiGeneratedQuestions := []
    userAnswersToQuestions := []
    supportingEvents := []
    finalSolution := []
    finalFeedback := []
    errorMessage := [] }

/-- The submit action offered by the UI at the current step: the source
renders exactly one submit button per step (`handleProblemSubmit` at step
1, `handleQuestionsAnswered` at step 2, `handleEventsSubmitted` at step 3)
and none at step 4, whose only action is `handleRestart`. -/
def submitAction (gen : Str → GeminiOutcome) (st : AppState) : AppState :=
  if st.currentStep = 1 then handleProblemSubmit gen st
  else if st.currentStep = 2 then handleQuestionsAnswered st
  else if st.currentStep = 3 then handleEventsSubmitted gen st
  else st

/-- Whether the outcome of the exchange is one of the two failure cases of
`callGeminiAPI`: a thrown transport error or a body failing the
candidate-list check. -/
def failedOutcome (o : GeminiOutcome) : Bool :=
  match o with
  | .thrown => true
  | .response _ body => (firstCandidateText body).isNone

/-! ### Helper lemmas about `firstOccur` -/

theorem firstOccur_isPrefixOf (pat s : Str) (i : Nat)
    (h : firstOccur pat s = some i) : pat <+: s.drop i := by
  induction s generalizing i with
  | nil =>
    unfold firstOccur at h
    split at h
    next hp =>
      obtain rfl : (0 : Nat) = i := by simpa using h
      simpa using List.isPrefixOf_iff_prefix.mp hp
    next => simp at h
  | cons c t ih =>
    unfold firstOccur at h
    split at h
    next hp =>
      obtain rfl : (0 : Nat) = i := by simpa using h
      simpa using List.isPrefixOf_iff_prefix.mp hp
    next =>
      obtain ⟨j, hj, rfl⟩ := Option.map_eq_some'.mp h
      simpa using ih j hj

theorem firstOccur_le_length (pat s : Str) (i : Nat)
    (h : firstOccur pat s = some i) : i ≤ s.length := by
  induction s generalizing i with
  | nil =>
    unfold firstOccur at h
    split at h
    next =>
      obtain rfl : (0 : Nat) = i := by simpa using h
      simp
    next => simp at h
  | cons c t ih =>
    unfold firstOccur at h
    split at h
    next =>
      obtain rfl : (0 : Nat) = i := by simpa using h
      simp
    next =>
      obtain ⟨j, hj, rfl⟩ := Option.map_eq_some'.mp h
      have := ih j hj
      simp only [List.length_cons]
      omega

theorem firstOccur_add_length_le (pat s : Str) (i : Nat)
    (h : firstOccur pat s = some i) : i + pat.length ≤ s.length := by
  have hpre := firstOccur_isPrefixOf pat s i h
  have hlen := hpre.length_le
  rw [List.length_drop] at hlen
  have hle : i ≤ s.length := firstOccur_le_length pat s i h
  omega

theorem prefix_head_eq {c d : Char} {p q l : Str}
    (h1 : (c :: p) <+: l) (h2 : (d :: q) <+: l) : c = d := by
  cases l with
  | nil =>
    have := h1.length_le
    simp at this
  | cons a t =>
    rw [List.cons_prefix_cons] at h1 h2
    rw [h1.1, h2.1]

theorem firstOccur_markers_ne (s : Str) (si fi : Nat)
    (hs : firstOccur solutionMarker s = some si)
    (hf : firstOccur feedbackMarker s = some fi) : si ≠ fi := by
  intro hEq
  subst hEq
  have h1 := firstOccur_isPrefixOf _ _ _ hs
  have h2 := firstOccur_isPrefixOf _ _ _ hf
  rw [show solutionMarker = 's' :: "olution:".toList by decide] at h1
  rw [show feedbackMarker = 'f' :: "eedback:".toList by decide] at h2
  have : 's' = 'f' := prefix_head_eq h1 h2
  simp at this

theorem toLowerStr_length (s : Str) : (toLowerStr s).length = s.length := by
  simp [toLowerStr]

theorem jsSubstring_to_length (l : Str) (a : Nat) (h : a ≤ l.length) :
    jsSubstring l a l.length = l.drop a := by
  unfold jsSubstring
  rw [Nat.min_eq_left h, Nat.max_eq_right h, ← List.length_drop, List.take_length]

/-! ### Claim theorems about the splitter -/

/-- C1: when both markers occur (case-insensitively) in the response, the
splitter assigns to each marker the trimmed substring between the end of
that marker's first occurrence and the start of the other marker — the
earlier marker's section ends where the later marker begins, the later
marker's section runs to the end of the text — independently of which
marker occurs first. -/
theorem splitResponse_both_markers (r : Str) (si fi : Nat)
    (hs : firstOccur solutionMarker (toLowerStr r) = some si)
    (hf : firstOccur feedbackMarker (toLowerStr r) = some fi) :
    splitResponse r =
      (trim (jsSubstring r (si + solutionMarker.length)
        (if si < fi then fi else r.length)),
       trim (jsSubstring r (fi + feedbackMarker.length)
        (if fi < si then si else r.length))) := by
  have hsb : si + solutionMarker.length ≤ r.length := by
    have := firstOccur_add_length_le _ _ _ hs
    rwa [toLowerStr_length] at this
  have hfb : fi + feedbackMarker.length ≤ r.length := by
    have := firstOccur_add_length_le _ _ _ hf
    rwa [toLowerStr_length] at this
  have hne : si ≠ fi := firstOccur_markers_ne _ _ _ hs hf
  simp only [splitResponse, hs, hf]
  rcases Nat.lt_or_ge si fi with hlt | hge
  · rw [if_pos hlt, if_pos hlt, if_neg (Nat.lt_asymm hlt),
      jsSubstring_to_length r _ hfb]
  · have hgt : fi < si := Nat.lt_of_le_of_ne hge (Ne.symm hne)
    rw [if_neg (Nat.not_lt.mpr hge), if_neg (Nat.not_lt.mpr hge), if_pos hgt,
      jsSubstring_to_length r _ hsb]

/-- Witness for C1: the two concrete splits named by the claim, obtained by
applying `splitResponse_both_markers` at both marker orders. -/
theorem splitResponse_both_markers_witness :
    splitResponse "Solution: A\nFeedback: B".toList = ("A".toList, "B".toList) ∧
    splitResponse "Feedback: B\nSolution: A".toList = ("A".toList, "B".toList) :=
  ⟨(splitResponse_both_markers "Solution: A\nFeedback: B".toList 0 12
      (by decide) (by decide)).trans (by decide),
   (splitResponse_both_markers "Feedback: B\nSolution: A".toList 12 0
      (by decide) (by decide)).trans (by decide)⟩

/-- C6: when exactly one of the two markers occurs, the splitter sets that
marker's section to the trimmed text after the marker's first occurrence
and the other section to a fixed non-empty placeholder string. -/
theorem splitResponse_single_marker (r : Str) :
    (∀ si, firstOccur solutionMarker (toLowerStr r) = some si →
      firstOccur feedbackMarker (toLowerStr r) = none →
      splitResponse r =
        (trim (List.drop (si + solutionMarker.length) r), noFeedbackFound)) ∧
    (∀ fi, firstOccur feedbackMarker (toLowerStr r) = some fi →
      firstOccur solutionMarker (toLowerStr r) = none →
      splitResponse r =
        (noSolutionFound, trim (List.drop (fi + feedbackMarker.length) r))) ∧
    noFeedbackFound ≠ [] ∧ noSolutionFound ≠ [] := by
  refine ⟨?_, ?_, by decide, by decide⟩
  · intro si hs hf
    simp only [splitResponse, hs, hf]
  · intro fi hf hs
    simp only [splitResponse, hs, hf]

/-- Witness for C6: the concrete split named by the claim, obtained by
applying `splitResponse_single_marker` at `"Solution: A"`. -/
theorem splitResponse_single_marker_witness :
    splitResponse "Solution: A".toList = ("A".toList, noFeedbackFound) :=
  ((splitResponse_single_marker "Solution: A".toList).1 0
    (by decide) (by decide)).trans (by decide)

/-- C7: when neither marker occurs, the splitter sets the solution to the
entire original text prefixed with the fixed could-not-parse notice (so
the result begins with the notice and ends with the original text) and the
feedback to the empty string. -/
theorem splitResponse_no_markers (r : Str)
    (hs : firstOccur solutionMarker (toLowerStr r) = none)
    (hf : firstOccur feedbackMarker (toLowerStr r) = none) :
    splitResponse r = (couldNotParseNotice ++ r, []) ∧
    couldNotParseNotice <+: (splitResponse r).1 ∧
    r <:+ (splitResponse r).1 := by
  have h : splitResponse r = (couldNotParseNotice ++ r, []) := by
    simp only [splitResponse, hs, hf]
  refine ⟨h, ?_, ?_⟩
  · rw [h]
    exact ⟨r, rfl⟩
  · rw [h]
    exact ⟨couldNotParseNotice, rfl⟩

/-- Witness for C7: `splitResponse_no_markers` applied at the marker-free
response `"hello"`. -/
theorem splitResponse_no_markers_witness :
    splitResponse "hello".toList = (couldNotParseNotice ++ "hello".toList, []) :=
  (splitResponse_no_markers "hello".toList (by decide) (by decide)).1

/-! ### Claim theorems about the wizard -/

/-- C3: at every step with a required input, submitting an empty or
whitespace-only input is rejected — the state is unchanged except that the
step's fixed non-empty validation message is stored in `errorMessage`, so
the step does not change and the wizard does not advance. -/
theorem submit_rejects_blank_input (gen : Str → GeminiOutcome) (st : AppState) :
    (trim st.problemStatement = [] →
      handleProblemSubmit gen st = { st with errorMessage := problemEmptyMsg }) ∧
    (trim st.userAnswersToQuestions = [] →
      handleQuestionsAnswered st = { st with errorMessage := answersEmptyMsg }) ∧
    (trim st.supportingEvents = [] →
      handleEventsSubmitted gen st = { st with errorMessage := eventsEmptyMsg }) ∧
    problemEmptyMsg ≠ [] ∧ answersEmptyMsg ≠ [] ∧ eventsEmptyMsg ≠ [] := by
  refine ⟨fun h => ?_, fun h => ?_, fun h => ?_, by decide, by decide, by decide⟩
  · simp [handleProblemSubmit, h]
  · simp [handleQuestionsAnswered, h]
  · simp [handleEventsSubmitted, h]

/-- Session state used to exercise the validation branches: whitespace-only
required inputs at every step. -/
def whitespaceState : AppState :=
  { initialAppState with
    problemStatement := "   ".toList
    userAnswersToQuestions := " \n ".toList
    supportingEvents := "\t".toList }

/-- Witness for C3: `submit_rejects_blank_input` applied at whitespace-only
inputs for all three submit handlers. -/
theorem submit_rejects_blank_input_witness :
    handleProblemSubmit (fun _ => GeminiOutcome.thrown) whitespaceState =
      { whitespaceState with errorMessage := problemEmptyMsg } ∧
    handleQuestionsAnswered whitespaceState =
      { whitespaceState with errorMessage := answersEmptyMsg } ∧
    handleEventsSubmitted (fun _ => GeminiOutcome.thrown) whitespaceState =
      { whitespaceState with errorMessage := eventsEmptyMsg } :=
  have h := submit_rejects_blank_input (fun _ => GeminiOutcome.thrown) whitespaceState
  ⟨h.1 (by decide), h.2.1 (by decide), h.2.2.1 (by decide)⟩

/-- C4: for every session state, restart resets every field
(`problemStatement`, `aiGeneratedQuestions`, `userAnswersToQuestions`,
`supportingEvents`, `finalSolution`, `finalFeedback`, `errorMessage`) to
its initial empty value and the step back to 1 (ProblemEntry). -/
theorem handleRestart_resets (st : AppState) :
    (handleRestart st).currentStep = initialAppState.currentStep ∧
    (handleRestart st).problemStatement = initialAppState.problemStatement ∧
    (handleRestart st).aiGeneratedQuestions = initialAppState.aiGeneratedQuestions ∧
    (handleRestart st).userAnswersToQuestions = initialAppState.userAnswersToQuestions ∧
    (handleRestart st).supportingEvents = initialAppState.supportingEvents ∧
    (handleRestart st).finalSolution = initialAppState.finalSolution ∧
    (handleRestart st).finalFeedback = initialAppState.finalFeedback ∧
    (handleRestart st).errorMessage = initialAppState.errorMessage := by
  refine ⟨rfl, rfl, rfl, rfl, rfl, rfl, rfl, rfl⟩

/-- C8: every transition — the submit action offered at the current step, or
restart — either keeps the step, advances it by exactly one, or (restart)
resets it to 1; it never moves backward otherwise and never skips a step
forward. -/
theorem step_advances_by_one (gen : Str → GeminiOutcome) (st : AppState) :
    ((submitAction gen st).currentStep = st.currentStep ∨
     (submitAction gen st).currentStep = st.currentStep + 1) ∧
    (handleRestart st).currentStep = 1 := by
  constructor
  · unfold submitAction handleProblemSubmit handleQuestionsAnswered handleEventsSubmitted
    split_ifs with h1 h2 h3 h4 h5 h6 <;> simp_all
  · rfl

/-- Session state at EventEntry (step 3) with all required inputs filled,
used to exercise a failing generation call. -/
def eventEntryState : AppState :=
  { initialAppState with
    currentStep := 3
    problemStatement := "I procrastinate on assignments".toList
    userAnswersToQuestions := "Mostly because of social media".toList
    supportingEvents := "Missed a deadline last week".toList }

/-- Generation environment in which every exchange fails with a thrown
transport error. -/
def failingGen : Str → GeminiOutcome := fun _ => GeminiOutcome.thrown

/-- Counterexample to C2: at EventEntry with a non-empty `supportingEvents`,
a failing (thrown) generation call advances the step to 4 and leaves
`errorMessage` empty — the claim says the step stays at EventEntry and a
non-empty `errorMessage` is set. -/
theorem generation_failure_cex :
    (handleEventsSubmitted failingGen eventEntryState).currentStep = 4 ∧
    (handleEventsSubmitted failingGen eventEntryState).errorMessage = [] := by
  decide

theorem errorPrefix_of_failed (o : GeminiOutcome)
    (h : failedOutcome o = true) : "Error:".toList <+: callGeminiAPI o := by
  match o with
  | .thrown => decide
  | .response status body =>
    simp only [failedOutcome, Option.isNone_iff_eq_none] at h
    simp only [callGeminiAPI, h]
    decide

/-- C2 (amended): when the generation call fails at ProblemEntry or
EventEntry (with non-empty trimmed input), the wizard clears
`errorMessage` to empty and advances exactly as on success — to
QuestionReview (step 2) with the failure's "Error:" text stored in
`aiGeneratedQuestions`, and from EventEntry to ResultView (step 4). -/
theorem generation_failure_still_advances (gen : Str → GeminiOutcome) (st : AppState) :
    (trim st.problemStatement ≠ [] →
      failedOutcome (gen (clarifyingPrompt st.problemStatement)) = true →
      (handleProblemSubmit gen st).currentStep = 2 ∧
      (handleProblemSubmit gen st).errorMessage = [] ∧
      "Error:".toList <+: (handleProblemSubmit gen st).aiGeneratedQuestions) ∧
    (trim st.supportingEvents ≠ [] →
      failedOutcome (gen (fullContextPrompt st)) = true →
      (handleEventsSubmitted gen st).currentStep = 4 ∧
      (handleEventsSubmitted gen st).errorMessage = []) := by
  constructor
  · intro h hfail
    unfold handleProblemSubmit
    rw [if_neg h]
    exact ⟨rfl, rfl, errorPrefix_of_failed _ hfail⟩
  · intro h hfail
    unfold handleEventsSubmitted
    rw [if_neg h]
    exact ⟨rfl, rfl⟩

/-- Witness for the amended C2: `generation_failure_still_advances` applied
to a thrown-transport-error environment at a filled-in session state. -/
theorem generation_failure_still_advances_witness :
    (handleProblemSubmit failingGen eventEntryState).currentStep = 2 ∧
    (handleProblemSubmit failingGen eventEntryState).errorMessage = [] ∧
    "Error:".toList <+: (handleProblemSubmit failingGen eventEntryState).aiGeneratedQuestions ∧
    (handleEventsSubmitted failingGen eventEntryState).currentStep = 4 ∧
    (handleEventsSubmitted failingGen eventEntryState).errorMessage = [] :=
  have h := generation_failure_still_advances failingGen eventEntryState
  have h1 := h.1 (by decide) (by decide)
  have h2 := h.2 (by decide) (by decide)
  ⟨h1.1, h1.2.1, h1.2.2, h2.1, h2.2⟩

/-- C5: the consolidated prompt modelled from the spec embeds
`problemStatement`, `userAnswersToQuestions` and `supportingEvents` as
contiguous substrings (the source's own prompt-construction statement at
src/streamlit_app.py:77-98 is a syntactically invalid Python/JavaScript
merge and never defines the `fullContextPrompt` it passes on line 100). -/
theorem fullContextPrompt_embeds (st : AppState) :
    st.problemStatement <:+: fullContextPrompt st ∧
    st.userAnswersToQuestions <:+: fullContextPrompt st ∧
    st.supportingEvents <:+: fullContextPrompt st := by
  refine ⟨⟨promptSeg1,
      promptSeg2 ++ st.userAnswersToQuestions ++ promptSeg3 ++
        st.supportingEvents ++ promptSeg4, ?_⟩,
    ⟨promptSeg1 ++ st.problemStatement ++ promptSeg2,
      promptSeg3 ++ st.supportingEvents ++ promptSeg4, ?_⟩,
    ⟨promptSeg1 ++ st.problemStatement ++ promptSeg2 ++
        st.userAnswersToQuestions ++ promptSeg3,
      promptSeg4, ?_⟩⟩ <;>
    simp [fullContextPrompt, List.append_assoc]

/-! ### Claim theorems about the generation client -/

/-- Response body with a well-formed candidate list whose first candidate's
first part carries the text `"ok text"`. -/
def wellFormedBody : GeminiResult :=
  { candidates := some [{ content := some { parts := some [{ text := "ok text".toList }] } }] }

/-- Response body without a candidate list. -/
def emptyBody : GeminiResult := { candidates := none }

/-- Response body whose generated text equals the transport-failure message,
witnessing that a success can be indistinguishable from a failure. -/
def echoBody : GeminiResult :=
  { candidates := some [{ content := some { parts := some [{ text := connectionErrorMsg }] } }] }

/-- Counterexample to C9: on a non-2xx (500) response with a well-formed
candidate list, `callGeminiAPI` returns the candidate text as an ordinary
string, whereas the claimed contract (`specGenerate`, modelled from the
spec) requires the typed failure `ServiceError 500`; the source never
inspects the HTTP status and returns no typed failure of any kind. -/
theorem non2xx_returns_text_cex :
    callGeminiAPI (GeminiOutcome.response 500 wellFormedBody) = "ok text".toList ∧
    specGenerate (GeminiOutcome.response 500 wellFormedBody) =
      Except.error (GenerationError.ServiceError 500) := by
  constructor
  · rfl
  · simp [specGenerate]

/-- C9 (amended): `callGeminiAPI` returns a plain string rather than a typed
`Result` — the HTTP status never influences the output (there is no
`ServiceError` branch), a body failing the candidate-list check maps to
the fixed message `invalidResponseMsg`, a body passing it maps to the
first candidate's first part's text regardless of status, and a thrown
transport error maps to the fixed message `connectionErrorMsg`; no failure
is retried, since one outcome is consumed per call. -/
theorem callGeminiAPI_plain_string (s1 s2 : Nat) (body : GeminiResult) :
    callGeminiAPI (GeminiOutcome.response s1 body) =
      callGeminiAPI (GeminiOutcome.response s2 body) ∧
    (firstCandidateText body = none →
      callGeminiAPI (GeminiOutcome.response s1 body) = invalidResponseMsg) ∧
    (∀ t, firstCandidateText body = some t →
      callGeminiAPI (GeminiOutcome.response s1 body) = t) ∧
    callGeminiAPI GeminiOutcome.thrown = connectionErrorMsg := by
  refine ⟨rfl, fun h => ?_, fun t h => ?_, rfl⟩
  · simp [callGeminiAPI, h]
  · simp [callGeminiAPI, h]

/-- Witness for the amended C9: `callGeminiAPI_plain_string` applied at a
500-status well-formed response and at a candidate-free response. -/
theorem callGeminiAPI_plain_string_witness :
    callGeminiAPI (GeminiOutcome.response 500 wellFormedBody) =
      callGeminiAPI (GeminiOutcome.response 200 wellFormedBody) ∧
    callGeminiAPI (GeminiOutcome.response 404 emptyBody) = invalidResponseMsg :=
  ⟨(callGeminiAPI_plain_string 500 200 wellFormedBody).1,
   (callGeminiAPI_plain_string 404 0 emptyBody).2.1 (by decide)⟩

/-- C10: `callGeminiAPI` always returns an ordinary string (it is a total
function into `Str`, so no exception reaches the caller): a thrown
transport error and a body failing the candidate-list check both map to
fixed non-empty messages beginning with `"Error:"`, and a success whose
generated text happens to equal such a message is indistinguishable from
a failure. -/
theorem callGeminiAPI_failures_are_strings (status : Nat) (body : GeminiResult) :
    (callGeminiAPI GeminiOutcome.thrown = connectionErrorMsg ∧
      "Error:".toList <+: connectionErrorMsg ∧ connectionErrorMsg ≠ []) ∧
    (firstCandidateText body = none →
      callGeminiAPI (GeminiOutcome.response status body) = invalidResponseMsg ∧
      "Error:".toList <+: invalidResponseMsg ∧ invalidResponseMsg ≠ []) ∧
    (∃ b : GeminiResult, firstCandidateText b ≠ none ∧
      callGeminiAPI (GeminiOutcome.response status b) = callGeminiAPI GeminiOutcome.thrown) := by
  refine ⟨⟨rfl, by decide, by decide⟩,
    fun h => ⟨by simp [callGeminiAPI, h], by decide, by decide⟩, ?_⟩
  refine ⟨echoBody, ?_, rfl⟩
  decide

/-- Witness for C10: `callGeminiAPI_failures_are_strings` applied at a
200-status response without a candidate list. -/
theorem callGeminiAPI_failures_are_strings_witness :
    callGeminiAPI (GeminiOutcome.response 200 emptyBody) = invalidResponseMsg ∧
    "Error:".toList <+: invalidResponseMsg :=
  have h := (callGeminiAPI_failures_are_strings 200 emptyBody).2.1 (by decide)
  ⟨h.1, h.2.1⟩
